import Mathlib

/-!
Verification of the trivia API backend (`backend/flaskr/__init__.py`).

The handlers are shallowly embedded as pure Lean functions over an explicit
database state (`TriviaDB`).  Flask's `abort(code)` / error-handler mechanism
is modelled by `HttpError` values; each registered error handler is one
definition mirroring the `@app.errorhandler` functions.  Python's list
slicing (`l[start:end]` with clamping and negative-index wrap-around) is
modelled by `pySlice`.  SQL `ILIKE` pattern matching (with the `%` and `_`
wildcards, no escape handling) is modelled by `likeMatch` over lower-cased
character lists.  `random.choice` is modelled by an oracle index `pick`:
the handler selects element `pick % length` of the eligible list, so every
eligible element is returned for some oracle value.

`models.py` is not part of the sources; the `Question`/`Category` records and
`Question.format` are modelled from the spec (section 3).
-/

/-- Modelled from the spec: the `Question` ORM record of the missing
`models.py` — id, question text, answer text, category reference and
difficulty score (spec §3). -/
structure Question where
  id : Int
  question : String
  answer : String
  category : Int
  difficulty : Int
deriving DecidableEq, Repr

/-- Modelled from the spec: the `Category` ORM record of the missing
`models.py` — id and display label (spec §3). -/
structure Category where
  id : Int
  type : String
deriving DecidableEq, Repr

/-- Modelled from the spec: the flat record produced by `Question.format()`
("formats each into a flat record", spec §4.2). -/
structure QuestionRecord where
  id : Int
  question : String
  answer : String
  category : Int
  difficulty : Int
deriving DecidableEq, Repr

/-- Modelled from the spec: `Question.format()` flattens the row into a
record of its five fields. -/
def Question.format (q : Question) : QuestionRecord :=
  ⟨q.id, q.question, q.answer, q.category, q.difficulty⟩

/-- The database state visible to the handlers: all `Question` rows, all
`Category` rows, and the next auto-increment id for question inserts. -/
structure TriviaDB where
  questions : List Question
  categories : List Category
  nextId : Int
deriving DecidableEq, Repr

/-- The auto-increment invariant of the SQL primary key: every stored id is
below the next id the database will assign. -/
def TriviaDB.FreshIds (db : TriviaDB) : Prop :=
  ∀ q ∈ db.questions, q.id < db.nextId

/-- The `{category.id: category.type}` dict built by the handlers. -/
def categoriesDict (db : TriviaDB) : List (Int × String) :=
  db.categories.map (fun c => (c.id, c.type))

/-! ### Error layer (`@app.errorhandler` functions) -/

/-- The uniform JSON error envelope `{success, error, message}`. -/
structure ErrBody where
  success : Bool
  error : Nat
  message : String
deriving DecidableEq, Repr

/-- An HTTP error response: the served status code plus the envelope. -/
structure HttpError where
  status : Nat
  body : ErrBody
deriving DecidableEq, Repr

/-- Flask's return semantics for error handlers: `return jsonify(body), st`
serves status `st`; when no status is attached the response is served with
Flask's default status 200. -/
def flaskReturn (body : ErrBody) (st : Option Nat) : HttpError :=
  ⟨st.getD 200, body⟩

/-- Handler `@app.errorhandler(400)`: returns the envelope with status 400. -/
def handler400 : HttpError :=
  flaskReturn ⟨false, 400, "bad request!"⟩ (some 400)

/-- Handler `@app.errorhandler(404)`: returns the envelope with status 404. -/
def handler404 : HttpError :=
  flaskReturn ⟨false, 404, "resource not found!"⟩ (some 404)

/-- Handler `@app.errorhandler(405)` (`not_allowed`): the source returns
`jsonify({...})` with NO status attached, so `flaskReturn` receives `none`. -/
def not_allowed : HttpError :=
  flaskReturn ⟨false, 405, "method not allowed!"⟩ none

/-- Handler `@app.errorhandler(422)`: returns the envelope with status 422. -/
def handler422 : HttpError :=
  flaskReturn ⟨false, 422, "unprocessable!"⟩ (some 422)

/-- Handler `@app.errorhandler(500)`: returns the envelope with status 500. -/
def handler500 : HttpError :=
  flaskReturn ⟨false, 500, "internal server error!"⟩ (some 500)

/-- Flask `abort(code)` dispatches to the registered error handler. -/
def abortWith : Nat → HttpError
  | 400 => handler400
  | 404 => handler404
  | 405 => not_allowed
  | 422 => handler422
  | _ => handler500

/-- Outcome of a handler: a success status with a typed JSON body, or an
error response produced through `abort`/error handlers. -/
inductive HResult (α : Type) where
  | ok (status : Nat) (body : α)
  | err (e : HttpError)
deriving DecidableEq, Repr

/-! ### Python list slicing -/

/-- Python slice-index normalisation for a list of length `n`: negative
indices count from the end and are clamped at 0, non-negative indices are
clamped at `n`. -/
def pySliceIndex (n : Nat) (i : Int) : Nat :=
  if i < 0 then (max (i + n) 0).toNat else min i.toNat n

/-- Python `l[a:b]` (step 1). -/
def pySlice {α : Type} (l : List α) (a b : Int) : List α :=
  let a' := pySliceIndex l.length a
  let b' := pySliceIndex l.length b
  (l.drop a').take (b' - a')

/-! ### GET /questions -/

/-- The `QUESTIONS_PER_PAGE` constant. -/
def QUESTIONS_PER_PAGE : Nat := 10

/-- Helper `paginate_questions(request, selection)`: formats every row of the
selection and slices `[(page-1)*10 : (page-1)*10 + 10]` in Python slice
semantics. -/
def paginate_questions (selection : List Question) (page : Int) : List QuestionRecord :=
  let start := (page - 1) * (QUESTIONS_PER_PAGE : Int)
  let stop := start + (QUESTIONS_PER_PAGE : Int)
  let questions := selection.map Question.format
  pySlice questions start stop

/-- Success body of `GET /questions`. -/
structure QuestionsBody where
  success : Bool
  questions : List QuestionRecord
  total_questions : Nat
  current_category : Option String
  categories : List (Int × String)
deriving DecidableEq, Repr

/-- Handler `get_questions` with the page number already extracted from the query
string: queries all questions, paginates, 404s on an empty window, otherwise
returns the page with the total count and the categories dict. -/
def getQuestionsAt (db : TriviaDB) (page : Int) : HResult QuestionsBody :=
  let selection := db.questions
  let total_questions := selection.length
  let current_questions := paginate_questions selection page
  if current_questions.length = 0 then
    .err (abortWith 404)
  else
    .ok 200 ⟨true, current_questions, total_questions, none, categoriesDict db⟩

/-- Value of a digit string. -/
def digitsVal (ds : List Char) : Int :=
  ds.foldl (fun n c => n * 10 + ((c.toNat : Int) - 48)) 0

/-- Python `int(s)` on a decimal string: an optional leading `-` followed by
at least one digit; anything else raises `ValueError` (`none`). -/
def pyInt? (s : String) : Option Int :=
  match s.data with
  | [] => none
  | '-' :: ds =>
    if ds.isEmpty || !ds.all Char.isDigit then none else some (-(digitsVal ds))
  | ds =>
    if !ds.all Char.isDigit then none else some (digitsVal ds)

/-- Flask `request.args.get('page', 1, type=int)`: Flask parses the raw query
parameter with `int(...)` and substitutes the default 1 when the parameter
is absent or the conversion fails. -/
def pageOf (pageParam : Option String) : Int :=
  (pageParam.bind pyInt?).getD 1

/-- The full `GET /questions` handler, from the raw `page` query parameter. -/
def get_questions (db : TriviaDB) (pageParam : Option String) : HResult QuestionsBody :=
  getQuestionsAt db (pageOf pageParam)

/-! ### DELETE /questions/<id> -/

/-- Success body of `DELETE /questions/<id>`. -/
structure DeleteBody where
  success : Bool
  deleted : Int
deriving DecidableEq, Repr

/-- Outcome of the delete handler: the HTTP result, the database after the
request, and whether `db.session.close()` ran (the `finally` block). -/
structure DeleteOutcome where
  result : HResult DeleteBody
  db : TriviaDB
  sessionClosed : Bool
deriving DecidableEq, Repr

/-- Handler `delete_question(question_id)`.  `commitFails` is the oracle for an
exception raised by the storage layer during delete/commit; `abort(404)`
raised inside the `try` for a missing row is itself an `Exception`, so both
paths fall into the `except` block: rollback (database unchanged) and
`abort(404)`.  The `finally` block closes the session on every exit path. -/
def delete_question (db : TriviaDB) (question_id : Int) (commitFails : Bool) :
    DeleteOutcome :=
  match db.questions.find? (fun q => q.id == question_id) with
  | none =>
    -- `abort(404)` raised in the try block, caught, rolled back, re-aborted
    ⟨.err (abortWith 404), db, true⟩
  | some _ =>
    if commitFails then
      ⟨.err (abortWith 404), db, true⟩
    else
      ⟨.ok 200 ⟨true, question_id⟩,
       { db with questions := db.questions.filter (fun q => !(q.id == question_id)) },
       true⟩

/-! ### POST /questions (create) -/

/-- Success body of `POST /questions`. -/
structure AddBody where
  success : Bool
  created : Int
  question : String
  answer : String
  category : Int
  difficulty : Int
deriving DecidableEq, Repr

/-- Outcome of the create handler: HTTP result and resulting database. -/
structure AddOutcome where
  result : HResult AddBody
  db : TriviaDB
deriving DecidableEq, Repr

/-- Python truthiness of an optional string field obtained from
`body.get(key, None)`: `None` (absent or JSON null) and `""` are falsy. -/
def truthyStr : Option String → Bool
  | none => false
  | some s => !(s == "")

/-- Python truthiness of an optional integer field: `None` and `0` are
falsy. -/
def truthyInt : Option Int → Bool
  | none => false
  | some n => !(n == 0)

/-- Handler `add_question()`: the four fields are read with `body.get(_, None)`;
if any is falsy the handler aborts 400 BEFORE touching the session.
Otherwise a new row is inserted with the database's auto-increment id and
echoed back with status 201.  (The `except` branch maps a storage failure to
500; the pure store cannot fail, so no failure oracle is modelled here.) -/
def add_question (db : TriviaDB) (question answer : Option String)
    (category difficulty : Option Int) : AddOutcome :=
  if !(truthyStr question && truthyStr answer &&
       truthyInt category && truthyInt difficulty) then
    ⟨.err (abortWith 400), db⟩
  else
    match question, answer, category, difficulty with
    | some q, some a, some c, some d =>
      let newQ : Question := ⟨db.nextId, q, a, c, d⟩
      ⟨.ok 201 ⟨true, newQ.id, newQ.question, newQ.answer, newQ.category, newQ.difficulty⟩,
       { db with questions := db.questions ++ [newQ], nextId := db.nextId + 1 }⟩
    | _, _, _, _ =>
      -- unreachable: a truthy field is a `some`
      ⟨.err (abortWith 400), db⟩

/-! ### POST /questions/search -/

/-- SQL `LIKE` pattern matching over characters: `%` matches any (possibly
empty) sequence — the rest of the pattern must match some suffix of the
text — `_` matches exactly one character, and any other pattern character
matches itself.  (No escape sequences are modelled; the source never
inserts one.) -/
def likeMatch : List Char → List Char → Bool
  | [], s => s.isEmpty
  | p :: ps, s =>
    if p = '%' then
      s.tails.any (fun s' => likeMatch ps s')
    else
      match s with
      | [] => false
      | c :: s' => (if p = '_' then true else c == p) && likeMatch ps s'

/-- SQL `ILIKE`: case-insensitive `LIKE` — both the text and the pattern are
lower-cased before matching. -/
def ilikeMatch (text pattern : String) : Bool :=
  likeMatch (pattern.data.map Char.toLower) (text.data.map Char.toLower)

/-- Success body of `POST /questions/search`. -/
structure SearchBody where
  success : Bool
  questions : List QuestionRecord
  total_questions : Nat
  current_category : Option String
deriving DecidableEq, Repr

/-- Handler `search_questions()`: aborts 400 on a missing or falsy `searchTerm`,
otherwise filters the questions with
`Question.question.ilike(f'%{search_term}%')` and returns the formatted
matches with their count and a null current category. -/
def search_questions (db : TriviaDB) (searchTerm : Option String) :
    HResult SearchBody :=
  match searchTerm with
  | none => .err (abortWith 400)
  | some t =>
    if t == "" then .err (abortWith 400)
    else
      let results := db.questions.filter
        (fun q => ilikeMatch q.question ("%" ++ t ++ "%"))
      let questions := results.map Question.format
      .ok 200 ⟨true, questions, questions.length, none⟩

/-! ### POST /quizzes -/

/-- A JSON value, as delivered by `request.get_json()`. -/
inductive JVal where
  | jnull : JVal
  | jbool : Bool → JVal
  | jnum : Int → JVal
  | jstr : String → JVal
  | jarr : List JVal → JVal
  | jobj : List (String × JVal) → JVal

/-- Python `body.get(key, None)` on the parsed JSON body: raises (`.error`) when the
body is not a dict; otherwise yields the value, with both an absent key and a
JSON null value appearing as Python `None` (`Option.none`). -/
def pyDictGet (body : JVal) (key : String) : Except Unit (Option JVal) :=
  match body with
  | .jobj fields =>
    match fields.lookup key with
    | some .jnull => .ok none
    | some v => .ok (some v)
    | none => .ok none
  | _ => .error ()

/-- Access `category['id']` followed by its use as an integer: raises when
`quiz_category` is not a dict (TypeError), lacks an `'id'` key (KeyError),
or holds a non-integer id (the storage layer rejects the comparison). -/
def getIdInt : JVal → Except Unit Int
  | .jobj fields =>
    match fields.lookup "id" with
    | some (.jnum n) => .ok n
    | some _ => .error ()
    | none => .error ()
  | _ => .error ()

/-- Query `Question.id.in_(previous_questions)`: raises (TypeError) unless
`previous_questions` is a list; non-integer entries are rejected by the
storage layer's id comparison. -/
def asIdList : JVal → Except Unit (List Int)
  | .jarr xs => xs.mapM (fun v => match v with
      | .jnum n => Except.ok n
      | _ => Except.error ())
  | _ => .error ()

/-- The eligible question set of the quiz endpoint: all questions when the
category id is the sentinel 0, otherwise `filter_by(category=...)`, in both
cases excluding ids in `previous_questions`. -/
def availableQuestions (db : TriviaDB) (catId : Int) (prev : List Int) :
    List Question :=
  if catId = 0 then
    db.questions.filter (fun q => !(prev.contains q.id))
  else
    (db.questions.filter (fun q => q.category == catId)).filter
      (fun q => !(prev.contains q.id))

/-- Success body of `POST /quizzes`: `question` is null when the eligible
set is exhausted. -/
structure QuizBody where
  success : Bool
  question : Option QuestionRecord
deriving DecidableEq, Repr

/-- The `try` block of `play_quiz()`.  `pick` is the oracle for
`random.choice`: the handler returns element `pick % length` of the eligible
list.  `abort(400)` raised inside the `try` (missing field) is an exception
like any other, so it is modelled as `.error` too. -/
def playQuizTry (db : TriviaDB) (body : JVal) (pick : Nat) :
    Except Unit QuizBody := do
  let category ← pyDictGet body "quiz_category"
  let previous_questions ← pyDictGet body "previous_questions"
  match category, previous_questions with
  | some cat, some prevV =>
    let catId ← getIdInt cat
    let prev ← asIdList prevV
    let avail := availableQuestions db catId prev
    match avail with
    | [] => .ok ⟨true, none⟩
    | q0 :: rest =>
      let chosen := (q0 :: rest).get ⟨pick % (q0 :: rest).length,
        Nat.mod_lt _ (Nat.succ_pos rest.length)⟩
      .ok ⟨true, some chosen.format⟩
  | _, _ => .error ()

/-- Handler `play_quiz()`: the whole `try` body with every exception mapped to
`abort(400)` by the `except` clause. -/
def play_quiz (db : TriviaDB) (body : JVal) (pick : Nat) : HResult QuizBody :=
  match playQuizTry db body pick with
  | .ok b => .ok 200 b
  | .error _ => .err (abortWith 400)

/-! ### Sample data for witnesses and counterexamples -/

/-- A sample question row. -/
def sampleQuestion (i : Nat) : Question :=
  ⟨(i : Int) + 1, "q", "a", 1, 1⟩

/-- A database with one question. -/
def dbOne : TriviaDB :=
  ⟨[⟨1, "What?", "This.", 1, 2⟩], [⟨1, "Science"⟩], 2⟩

/-- A database with 15 question rows (ids 1..15). -/
def db15 : TriviaDB :=
  ⟨(List.range 15).map sampleQuestion, [⟨1, "Science"⟩], 16⟩

/-! ### Theorems -/

/-- Claim C8: the method-not-allowed handler produces the envelope
`{success: false, error: 405, message: <string>}` but attaches no status
code, so the response is served with Flask's default status 200. -/
theorem not_allowed_served_as_200 :
    not_allowed.body = ⟨false, 405, "method not allowed!"⟩ ∧
    not_allowed.status = 200 :=
  ⟨rfl, rfl⟩

/-- Claim C10: a `GET /questions` request whose `page` query parameter is
absent or fails integer conversion is served exactly like a `page=1`
request. -/
theorem get_questions_bad_page_defaults (db : TriviaDB) (s : String)
    (hs : pyInt? s = none) :
    get_questions db (some s) = getQuestionsAt db 1 ∧
    get_questions db none = getQuestionsAt db 1 := by
  refine ⟨?_, rfl⟩
  unfold get_questions pageOf
  simp [hs]

/-- For non-negative slice bounds, Python slicing is plain drop/take. -/
theorem pySlice_of_nonneg {α : Type} (l : List α) (a b : Int)
    (ha : 0 ≤ a) (hb : 0 ≤ b) :
    pySlice l a b = (l.drop a.toNat).take (b.toNat - a.toNat) := by
  unfold pySlice pySliceIndex
  rw [if_neg (by omega), if_neg (by omega)]
  rcases le_or_lt a.toNat l.length with h1 | h1
  · rw [min_eq_left h1]
    rcases le_or_lt b.toNat l.length with h2 | h2
    · rw [min_eq_left h2]
    · rw [min_eq_right h2.le,
        List.take_of_length_le (by simp),
        List.take_of_length_le (by simp; omega)]
  · rw [min_eq_right h1.le]
    simp [List.drop_eq_nil_of_le h1.le]

/-- For page numbers `p ≥ 1`, pagination is the drop/take window
`[10*(p-1), 10*p)` over the formatted list. -/
theorem paginate_questions_pos (selection : List Question) (p : Nat) (hp : 1 ≤ p) :
    paginate_questions selection (p : Int) =
      ((selection.map Question.format).drop (QUESTIONS_PER_PAGE * (p - 1))).take
        QUESTIONS_PER_PAGE := by
  unfold paginate_questions QUESTIONS_PER_PAGE
  rw [pySlice_of_nonneg _ _ _ (by omega) (by omega)]
  have h1 : (((p : Int) - 1) * (10 : Nat)).toNat = 10 * (p - 1) := by
    push_cast
    omega
  have h2 : (((p : Int) - 1) * (10 : Nat) + (10 : Nat)).toNat -
      (((p : Int) - 1) * (10 : Nat)).toNat = 10 := by
    push_cast
    omega
  rw [h2, h1]

/-- Claim C2: for a page `p ≥ 1` with a non-empty window, `GET /questions`
returns status 200 with the formatted question list sliced to positions
`[10*(p-1), 10*p)` (hence at most 10 items), the total stored-question
count, a null current category, and the full categories mapping. -/
theorem get_questions_page_ok (db : TriviaDB) (p : Nat) (hp : 1 ≤ p)
    (hne : ((db.questions.map Question.format).drop (QUESTIONS_PER_PAGE * (p - 1))).take
      QUESTIONS_PER_PAGE ≠ []) :
    getQuestionsAt db (p : Int) = .ok 200
      ⟨true,
       ((db.questions.map Question.format).drop (QUESTIONS_PER_PAGE * (p - 1))).take
         QUESTIONS_PER_PAGE,
       db.questions.length, none, categoriesDict db⟩ ∧
    (((db.questions.map Question.format).drop (QUESTIONS_PER_PAGE * (p - 1))).take
      QUESTIONS_PER_PAGE).length ≤ QUESTIONS_PER_PAGE := by
  constructor
  · simp only [getQuestionsAt]
    rw [paginate_questions_pos db.questions p hp]
    rw [if_neg (fun h0 => hne (List.length_eq_zero.mp h0))]
  · exact List.length_take_le _ _

/-- Witness for C2 at a one-question database and page 1. -/
theorem get_questions_page_ok_witness :
    getQuestionsAt dbOne (1 : Nat) = .ok 200
      ⟨true,
       ((dbOne.questions.map Question.format).drop (QUESTIONS_PER_PAGE * (1 - 1))).take
         QUESTIONS_PER_PAGE,
       dbOne.questions.length, none, categoriesDict dbOne⟩ ∧
    (((dbOne.questions.map Question.format).drop (QUESTIONS_PER_PAGE * (1 - 1))).take
      QUESTIONS_PER_PAGE).length ≤ QUESTIONS_PER_PAGE :=
  get_questions_page_ok dbOne 1 (by decide) (by decide)

/-- Claim C3: whenever the page window is empty, `GET /questions` responds
404 with `success=false`; the window is empty in particular when the store
holds no questions, and when a page `p ≥ 1` lies beyond the available pages
(`10*(p-1)` at or past the number of questions). -/
theorem get_questions_empty_window_404 (db : TriviaDB) (p : Int) :
    (paginate_questions db.questions p = [] →
      getQuestionsAt db p = .err ⟨404, ⟨false, 404, "resource not found!"⟩⟩) ∧
    (db.questions = [] → paginate_questions db.questions p = []) ∧
    (1 ≤ p → (db.questions.length : Int) ≤ (p - 1) * (QUESTIONS_PER_PAGE : Int) →
      paginate_questions db.questions p = []) := by
  refine ⟨fun h => ?_, fun h => ?_, fun hp hlen => ?_⟩
  · simp only [getQuestionsAt]
    rw [h]
    rfl
  · simp [paginate_questions, pySlice, h]
  · unfold paginate_questions
    rw [pySlice_of_nonneg _ _ _ (by unfold QUESTIONS_PER_PAGE; push_cast; nlinarith)
      (by unfold QUESTIONS_PER_PAGE; push_cast; nlinarith)]
    rw [List.drop_eq_nil_of_le (by
      unfold QUESTIONS_PER_PAGE at hlen ⊢
      simp only [List.length_map]
      push_cast at hlen
      omega)]
    simp

/-- Witness for C3 at the empty database and page 1. -/
theorem get_questions_empty_window_404_witness :
    (paginate_questions (⟨[], [], 1⟩ : TriviaDB).questions 1 = [] →
      getQuestionsAt ⟨[], [], 1⟩ 1 = .err ⟨404, ⟨false, 404, "resource not found!"⟩⟩) ∧
    ((⟨[], [], 1⟩ : TriviaDB).questions = [] →
      paginate_questions (⟨[], [], 1⟩ : TriviaDB).questions 1 = []) ∧
    (1 ≤ (1 : Int) →
      ((⟨[], [], 1⟩ : TriviaDB).questions.length : Int) ≤
        (1 - 1) * (QUESTIONS_PER_PAGE : Int) →
      paginate_questions (⟨[], [], 1⟩ : TriviaDB).questions 1 = []) :=
  get_questions_empty_window_404 ⟨[], [], 1⟩ 1

/-- For negative slice bounds, Python slicing counts from the end of the
list (clamped at 0 through `Int.toNat`). -/
theorem pySlice_of_neg {α : Type} (l : List α) (a b : Int)
    (ha : a < 0) (hb : b < 0) :
    pySlice l a b =
      (l.drop (a + l.length).toNat).take
        ((b + l.length).toNat - (a + l.length).toNat) := by
  have hmax : ∀ x : Int, (max x 0).toNat = x.toNat := by
    intro x
    rcases le_total x 0 with h | h
    · rw [max_eq_right h, Int.toNat_of_nonpos h]
      rfl
    · rw [max_eq_left h]
  unfold pySlice pySliceIndex
  rw [if_pos ha, if_pos hb, hmax, hmax]

/-- A Python slice with stop index 0 is empty. -/
theorem pySlice_zero_stop {α : Type} (l : List α) (a : Int) :
    pySlice l a 0 = [] := by
  unfold pySlice pySliceIndex
  rw [if_neg (show ¬ (0 : Int) < 0 by omega)]
  simp

/-- Claim C9, page-0 half plus the corrected negative-page behaviour: page 0
always yields the empty window `[-10, 0)` and hence a 404; page -1 on a
store of at least 20 questions yields a non-empty 200 response with the
questions at positions `[len-20, len-10)` — the tail-end window. -/
theorem get_questions_page_zero_and_negative (db : TriviaDB) :
    getQuestionsAt db 0 = .err ⟨404, ⟨false, 404, "resource not found!"⟩⟩ ∧
    (20 ≤ db.questions.length →
      getQuestionsAt db (-1) = .ok 200
        ⟨true,
         ((db.questions.map Question.format).drop (db.questions.length - 20)).take
           QUESTIONS_PER_PAGE,
         db.questions.length, none, categoriesDict db⟩ ∧
      ((db.questions.map Question.format).drop (db.questions.length - 20)).take
        QUESTIONS_PER_PAGE ≠ []) := by
  constructor
  · have h0 : paginate_questions db.questions 0 = [] := by
      simp only [paginate_questions, QUESTIONS_PER_PAGE]
      norm_num
      exact pySlice_zero_stop _ _
    simp only [getQuestionsAt]
    rw [h0]
    rfl
  · intro h20
    have hwin : paginate_questions db.questions (-1) =
        ((db.questions.map Question.format).drop (db.questions.length - 20)).take
          QUESTIONS_PER_PAGE := by
      unfold paginate_questions QUESTIONS_PER_PAGE
      rw [pySlice_of_neg _ _ _ (by norm_num) (by norm_num)]
      have hlen : (db.questions.map Question.format).length = db.questions.length :=
        List.length_map _ _
      have h1 : ((-1 - 1) * ((10 : Nat) : Int) +
          (db.questions.map Question.format).length).toNat =
          db.questions.length - 20 := by
        rw [hlen]
        push_cast
        omega
      have h2 : ((-1 - 1) * ((10 : Nat) : Int) + ((10 : Nat) : Int) +
          (db.questions.map Question.format).length).toNat -
          ((-1 - 1) * ((10 : Nat) : Int) +
            (db.questions.map Question.format).length).toNat = 10 := by
        rw [hlen]
        push_cast
        omega
      rw [h2, h1]
    have hne : (((db.questions.map Question.format).drop (db.questions.length - 20)).take
        QUESTIONS_PER_PAGE) ≠ [] := by
      intro hnil
      have hl := congrArg List.length hnil
      rw [List.length_take, List.length_drop, List.length_map] at hl
      unfold QUESTIONS_PER_PAGE at hl
      simp only [List.length_nil] at hl
      omega
    refine ⟨?_, hne⟩
    simp only [getQuestionsAt]
    rw [hwin, if_neg (fun h0 => hne (List.length_eq_zero.mp h0))]

/-- Witness for C9's theorem at a database of 20 questions. -/
theorem get_questions_page_zero_and_negative_witness :
    getQuestionsAt ⟨(List.range 20).map sampleQuestion, [], 21⟩ 0 =
      .err ⟨404, ⟨false, 404, "resource not found!"⟩⟩ ∧
    (20 ≤ ((⟨(List.range 20).map sampleQuestion, [], 21⟩ : TriviaDB)).questions.length →
      getQuestionsAt ⟨(List.range 20).map sampleQuestion, [], 21⟩ (-1) = .ok 200
        ⟨true,
         ((((⟨(List.range 20).map sampleQuestion, [], 21⟩ : TriviaDB)).questions.map
            Question.format).drop
           (((⟨(List.range 20).map sampleQuestion, [], 21⟩ : TriviaDB)).questions.length - 20)).take
           QUESTIONS_PER_PAGE,
         ((⟨(List.range 20).map sampleQuestion, [], 21⟩ : TriviaDB)).questions.length, none,
         categoriesDict ⟨(List.range 20).map sampleQuestion, [], 21⟩⟩ ∧
      ((((⟨(List.range 20).map sampleQuestion, [], 21⟩ : TriviaDB)).questions.map
          Question.format).drop
        (((⟨(List.range 20).map sampleQuestion, [], 21⟩ : TriviaDB)).questions.length - 20)).take
        QUESTIONS_PER_PAGE ≠ []) :=
  get_questions_page_zero_and_negative ⟨(List.range 20).map sampleQuestion, [], 21⟩

/-- Claim C9 counterexample: with 15 stored questions (more than 10),
`page=-1` returns the 5-element window at positions `[0, 5)` — not a
10-position window `[len-20, len-10)` as the claim's example asserts. -/
theorem get_questions_neg_page_counterexample :
    10 < db15.questions.length ∧
    getQuestionsAt db15 (-1) = .ok 200
      ⟨true, (List.range 5).map (fun i => (sampleQuestion i).format),
       15, none, [(1, "Science")]⟩ ∧
    ((List.range 5).map (fun i => (sampleQuestion i).format)).length ≠ 10 := by
  decide

/-- Claim C4: deleting an absent id responds 404; deleting a present id with
a successful commit responds 200 echoing the id and removes the question;
any storage exception (`commitFails`) is rolled back — the store unchanged —
and re-reported as 404, never as a server error; the session is closed on
every exit path. -/
theorem delete_question_spec (db : TriviaDB) (qid : Int) (commitFails : Bool) :
    ((∀ q ∈ db.questions, q.id ≠ qid) →
      delete_question db qid commitFails =
        ⟨.err ⟨404, ⟨false, 404, "resource not found!"⟩⟩, db, true⟩) ∧
    ((∃ q ∈ db.questions, q.id = qid) → commitFails = false →
      (delete_question db qid commitFails).result = .ok 200 ⟨true, qid⟩ ∧
      ∀ q ∈ (delete_question db qid commitFails).db.questions, q.id ≠ qid) ∧
    (commitFails = true →
      (delete_question db qid commitFails).result =
        .err ⟨404, ⟨false, 404, "resource not found!"⟩⟩ ∧
      (delete_question db qid commitFails).db = db) ∧
    (delete_question db qid commitFails).sessionClosed = true := by
  refine ⟨fun habs => ?_, fun hex hok => ?_, fun hf => ?_, ?_⟩
  · have hnone : db.questions.find? (fun q => q.id == qid) = none := by
      rw [List.find?_eq_none]
      intro q hq
      simpa using habs q hq
    unfold delete_question
    rw [hnone]
    rfl
  · have hsome : (db.questions.find? (fun q => q.id == qid)).isSome := by
      rcases hex with ⟨q, hq, hid⟩
      rw [List.find?_isSome]
      exact ⟨q, hq, by simpa using hid⟩
    rcases Option.isSome_iff_exists.mp hsome with ⟨q0, hq0⟩
    subst hok
    unfold delete_question
    rw [hq0]
    refine ⟨rfl, ?_⟩
    intro q hq
    have := List.of_mem_filter hq
    simpa using this
  · subst hf
    unfold delete_question
    cases hfind : db.questions.find? (fun q => q.id == qid) with
    | none => exact ⟨rfl, rfl⟩
    | some q0 => exact ⟨rfl, rfl⟩
  · unfold delete_question
    cases hfind : db.questions.find? (fun q => q.id == qid) with
    | none => rfl
    | some q0 =>
      cases commitFails with
      | false => rfl
      | true => rfl

/-- Witness for C4 at the one-question database, deleting id 1 without a
commit failure. -/
theorem delete_question_spec_witness :
    ((∀ q ∈ dbOne.questions, q.id ≠ 1) →
      delete_question dbOne 1 false =
        ⟨.err ⟨404, ⟨false, 404, "resource not found!"⟩⟩, dbOne, true⟩) ∧
    ((∃ q ∈ dbOne.questions, q.id = 1) → false = false →
      (delete_question dbOne 1 false).result = .ok 200 ⟨true, 1⟩ ∧
      ∀ q ∈ (delete_question dbOne 1 false).db.questions, q.id ≠ 1) ∧
    (false = true →
      (delete_question dbOne 1 false).result =
        .err ⟨404, ⟨false, 404, "resource not found!"⟩⟩ ∧
      (delete_question dbOne 1 false).db = dbOne) ∧
    (delete_question dbOne 1 false).sessionClosed = true :=
  delete_question_spec dbOne 1 false

/-- Claim C5: if any of the four body fields is absent or falsy (empty
string, 0, or null — including `difficulty=0`) the create endpoint responds
400 and inserts nothing; if all four are truthy it responds 201 with
`created` a fresh, previously unused id and the four fields echoed back. -/
theorem add_question_spec (db : TriviaDB) (question answer : Option String)
    (category difficulty : Option Int) (hfresh : db.FreshIds) :
    ((truthyStr question = false ∨ truthyStr answer = false ∨
        truthyInt category = false ∨ truthyInt difficulty = false) →
      add_question db question answer category difficulty =
        ⟨.err ⟨400, ⟨false, 400, "bad request!"⟩⟩, db⟩) ∧
    (∀ (qs as : String) (cs ds : Int),
      question = some qs → answer = some as →
      category = some cs → difficulty = some ds →
      qs ≠ "" → as ≠ "" → cs ≠ 0 → ds ≠ 0 →
      add_question db question answer category difficulty =
        ⟨.ok 201 ⟨true, db.nextId, qs, as, cs, ds⟩,
         ⟨db.questions ++ [⟨db.nextId, qs, as, cs, ds⟩], db.categories,
          db.nextId + 1⟩⟩ ∧
      ∀ x ∈ db.questions, x.id ≠ db.nextId) := by
  constructor
  · intro hfalsy
    unfold add_question
    rw [if_pos (by rcases hfalsy with h | h | h | h <;> simp [h])]
    rfl
  · intro qs as cs ds hq ha hc hd hq0 ha0 hc0 hd0
    subst hq
    subst ha
    subst hc
    subst hd
    constructor
    · unfold add_question
      rw [if_neg (by simp [truthyStr, truthyInt, hq0, ha0, hc0, hd0])]
    · intro x hx
      exact ne_of_lt (hfresh x hx)

/-- Witness for C5 at the one-question database with a full body. -/
theorem add_question_spec_witness :
    ((truthyStr (some "Why?") = false ∨ truthyStr (some "Because.") = false ∨
        truthyInt (some 2) = false ∨ truthyInt (some 3) = false) →
      add_question dbOne (some "Why?") (some "Because.") (some 2) (some 3) =
        ⟨.err ⟨400, ⟨false, 400, "bad request!"⟩⟩, dbOne⟩) ∧
    (∀ (qs as : String) (cs ds : Int),
      some "Why?" = some qs → some "Because." = some as →
      some 2 = some cs → some 3 = some ds →
      qs ≠ "" → as ≠ "" → cs ≠ 0 → ds ≠ 0 →
      add_question dbOne (some "Why?") (some "Because.") (some 2) (some 3) =
        ⟨.ok 201 ⟨true, dbOne.nextId, qs, as, cs, ds⟩,
         ⟨dbOne.questions ++ [⟨dbOne.nextId, qs, as, cs, ds⟩], dbOne.categories,
          dbOne.nextId + 1⟩⟩ ∧
      ∀ x ∈ dbOne.questions, x.id ≠ dbOne.nextId) :=
  add_question_spec dbOne (some "Why?") (some "Because.") (some 2) (some 3)
    (by intro q hq; fin_cases hq; decide)

/-! ### LIKE pattern lemmas -/

/-- A `%`-led pattern matches iff the rest of the pattern matches some
suffix of the text. -/
theorem likeMatch_percent_cons (ps s : List Char) :
    likeMatch ('%' :: ps) s = true ↔ ∃ s', (s' <:+ s) ∧ likeMatch ps s' = true := by
  have h : likeMatch ('%' :: ps) s = s.tails.any (fun s' => likeMatch ps s') := by
    simp only [likeMatch]
    rfl
  rw [h, List.any_eq_true]
  constructor
  · rintro ⟨s', hmem, hm⟩
    exact ⟨s', (List.mem_tails _ _).mp hmem, hm⟩
  · rintro ⟨s', hsfx, hm⟩
    exact ⟨s', (List.mem_tails _ _).mpr hsfx, hm⟩

/-- A pattern without wildcards matches exactly itself. -/
theorem likeMatch_noWild (p : List Char) (hw : ∀ c ∈ p, c ≠ '%' ∧ c ≠ '_') :
    ∀ s : List Char, likeMatch p s = true ↔ s = p := by
  induction p with
  | nil =>
    intro s
    show s.isEmpty = true ↔ s = []
    exact List.isEmpty_iff
  | cons c ps ih =>
    intro s
    have hc := hw c (List.mem_cons_self c ps)
    cases s with
    | nil =>
      simp only [likeMatch, if_neg hc.1]
      simp
    | cons c' s' =>
      simp only [likeMatch, if_neg hc.1, if_neg hc.2]
      have ih' := ih (fun x hx => hw x (List.mem_cons_of_mem c hx)) s'
      rw [Bool.and_eq_true_iff, List.cons_eq_cons]
      constructor
      · rintro ⟨h1, h2⟩
        exact ⟨eq_of_beq h1, ih'.mp h2⟩
      · rintro ⟨h1, h2⟩
        exact ⟨beq_iff_eq.mpr h1, ih'.mpr h2⟩

/-- A wildcard-free pattern followed by a single trailing `%` matches
exactly the texts it prefixes. -/
theorem likeMatch_noWild_percent (p : List Char)
    (hw : ∀ c ∈ p, c ≠ '%' ∧ c ≠ '_') :
    ∀ s : List Char, likeMatch (p ++ ['%']) s = true ↔ p <+: s := by
  induction p with
  | nil =>
    intro s
    rw [List.nil_append, likeMatch_percent_cons]
    constructor
    · intro _
      exact List.nil_prefix
    · intro _
      exact ⟨[], List.nil_suffix, rfl⟩
  | cons c ps ih =>
    intro s
    have hc := hw c (List.mem_cons_self c ps)
    rw [List.cons_append]
    cases s with
    | nil =>
      simp only [likeMatch, if_neg hc.1]
      simp only [Bool.false_eq_true, false_iff]
      intro hpre
      exact List.cons_ne_nil c ps (List.prefix_nil.mp hpre)
    | cons c' s' =>
      simp only [likeMatch, if_neg hc.1, if_neg hc.2]
      have ih' := ih (fun x hx => hw x (List.mem_cons_of_mem c hx)) s'
      rw [Bool.and_eq_true_iff, List.cons_prefix_cons]
      constructor
      · rintro ⟨h1, h2⟩
        exact ⟨(eq_of_beq h1).symm, ih'.mp h2⟩
      · rintro ⟨h1, h2⟩
        exact ⟨beq_iff_eq.mpr h1.symm, ih'.mpr h2⟩

/-- The pattern `%t%` for wildcard-free `t` matches exactly the texts that
contain `t` as a contiguous substring. -/
theorem likeMatch_percent_wrap (t s : List Char)
    (hw : ∀ c ∈ t, c ≠ '%' ∧ c ≠ '_') :
    likeMatch ('%' :: (t ++ ['%'])) s = true ↔ t <:+: s := by
  rw [likeMatch_percent_cons, List.infix_iff_prefix_suffix]
  constructor
  · rintro ⟨s', hsfx, hm⟩
    exact ⟨s', (likeMatch_noWild_percent t hw s').mp hm, hsfx⟩
  · rintro ⟨s', hpre, hsfx⟩
    exact ⟨s', hsfx, (likeMatch_noWild_percent t hw s').mpr hpre⟩

/-- Applying `Char.ofNat` on a valid (< 0xD800) code point keeps its value. -/
theorem char_toNat_ofNat_valid (m : Nat) (hm : m < 55296) :
    (Char.ofNat m).toNat = m := by
  have hv : m.isValidChar := Or.inl hm
  rw [Char.ofNat, dif_pos hv]
  rfl

/-- Lower-casing never produces a character with code below 97 that was not
already there; in particular it cannot introduce `%` (37) or `_` (95). -/
theorem toLower_ne_of_lt (c w : Char) (hw : w.toNat < 97) (hne : c ≠ w) :
    c.toLower ≠ w := by
  rw [Char.toLower]
  split
  · rename_i h
    intro heq
    have h65 : 65 ≤ c.toNat := h.1
    have h90 : c.toNat ≤ 90 := h.2
    have hval : (Char.ofNat (c.toNat + 32)).toNat = c.toNat + 32 :=
      char_toNat_ofNat_valid _ (by omega)
    rw [heq] at hval
    omega
  · exact hne

/-- The claim's search criterion (spec wording): the term occurs in the
question text as a case-insensitive contiguous substring. -/
def containsCI (text term : String) : Bool :=
  decide ((term.data.map Char.toLower) <:+: (text.data.map Char.toLower))

/-- For a search term without SQL wildcards, `ILIKE '%term%'` is exactly
case-insensitive substring containment. -/
theorem ilikeMatch_eq_containsCI (s t : String)
    (hw : ∀ c ∈ t.data, c ≠ '%' ∧ c ≠ '_') :
    ilikeMatch s ("%" ++ t ++ "%") = containsCI s t := by
  have hdata : ("%" ++ t ++ "%").data = '%' :: (t.data ++ ['%']) := by
    rw [String.data_append, String.data_append]
    rfl
  have hmapped : ("%" ++ t ++ "%").data.map Char.toLower =
      '%' :: (t.data.map Char.toLower ++ ['%']) := by
    rw [hdata]
    simp
  have hww : ∀ c ∈ t.data.map Char.toLower, c ≠ '%' ∧ c ≠ '_' := by
    intro c hc
    rcases List.mem_map.mp hc with ⟨c0, hc0, rfl⟩
    exact ⟨toLower_ne_of_lt c0 '%' (by decide) (hw c0 hc0).1,
           toLower_ne_of_lt c0 '_' (by decide) (hw c0 hc0).2⟩
  rw [Bool.eq_iff_iff]
  unfold ilikeMatch containsCI
  rw [hmapped, likeMatch_percent_wrap _ _ hww, decide_eq_true_iff]

/-- A one-question database used to exercise the search endpoint. -/
def dbSearch : TriviaDB :=
  ⟨[⟨1, "abc", "ans", 1, 1⟩], [], 2⟩

/-- Claim C6 counterexample: with the stored question text `"abc"` and the
search term `"a_c"`, the handler's `ILIKE` treats `_` as a one-character
wildcard and returns the question, although `"a_c"` is not a substring of
`"abc"` — so the response is not "exactly the questions whose text contains
the search term as a case-insensitive substring". -/
theorem search_questions_counterexample :
    search_questions dbSearch (some "a_c") =
      .ok 200 ⟨true, [⟨1, "abc", "ans", 1, 1⟩], 1, none⟩ ∧
    containsCI "abc" "a_c" = false ∧
    (dbSearch.questions.filter
      (fun q => containsCI q.question "a_c")).map Question.format = [] := by
  refine ⟨?_, ?_, ?_⟩ <;> decide

/-- Claim C6 (amended): a missing or empty `searchTerm` yields 400; for a
non-empty term free of the SQL wildcard characters `%` and `_`, the search
returns 200 with exactly the stored questions whose text contains the term
as a case-insensitive substring, their count, and a null current
category. -/
theorem search_questions_spec (db : TriviaDB) (t : String)
    (hw : ∀ c ∈ t.data, c ≠ '%' ∧ c ≠ '_') :
    search_questions db none = .err ⟨400, ⟨false, 400, "bad request!"⟩⟩ ∧
    search_questions db (some "") = .err ⟨400, ⟨false, 400, "bad request!"⟩⟩ ∧
    (t ≠ "" →
      search_questions db (some t) = .ok 200
        ⟨true,
         (db.questions.filter (fun q => containsCI q.question t)).map Question.format,
         (db.questions.filter (fun q => containsCI q.question t)).length,
         none⟩) := by
  refine ⟨rfl, rfl, fun ht => ?_⟩
  have hfilter : db.questions.filter
      (fun q => ilikeMatch q.question ("%" ++ t ++ "%")) =
      db.questions.filter (fun q => containsCI q.question t) :=
    List.filter_congr (fun q _ => ilikeMatch_eq_containsCI q.question t hw)
  simp only [search_questions]
  rw [if_neg (by simpa using ht), hfilter, List.length_map]

/-- Witness for C6's amended theorem at the sample database and the
wildcard-free term `"ab"`. -/
theorem search_questions_spec_witness :
    search_questions dbSearch none = .err ⟨400, ⟨false, 400, "bad request!"⟩⟩ ∧
    search_questions dbSearch (some "") = .err ⟨400, ⟨false, 400, "bad request!"⟩⟩ ∧
    ("ab" ≠ "" →
      search_questions dbSearch (some "ab") = .ok 200
        ⟨true,
         (dbSearch.questions.filter
           (fun q => containsCI q.question "ab")).map Question.format,
         (dbSearch.questions.filter
           (fun q => containsCI q.question "ab")).length,
         none⟩) :=
  search_questions_spec dbSearch "ab" (by decide)

/-! ### Quiz endpoint lemmas -/

/-- A well-formed `POST /quizzes` body: `quiz_category` an object carrying
an integer id, `previous_questions` a JSON list of integer ids. -/
def quizBodyFor (catId : Int) (prev : List Int) : JVal :=
  .jobj [("quiz_category", .jobj [("id", .jnum catId)]),
         ("previous_questions", .jarr (prev.map JVal.jnum))]

/-- A `previous_questions` value sent as a JSON array of integers parses back to
that integer list. -/
theorem asIdList_map_jnum (prev : List Int) :
    asIdList (.jarr (prev.map JVal.jnum)) = .ok prev := by
  induction prev with
  | nil => rfl
  | cons n ns ih =>
    show ((n :: ns).map JVal.jnum).mapM _ = Except.ok (n :: ns)
    rw [List.map_cons, List.mapM_cons]
    have ih' : (ns.map JVal.jnum).mapM (fun v => match v with
        | JVal.jnum n => Except.ok n
        | _ => Except.error ()) = Except.ok ns := ih
    rw [ih']
    rfl

/-- Running the quiz handler on a well-formed body reduces to a pick from
the eligible list (or a null question when it is empty). -/
theorem playQuizTry_run (db : TriviaDB) (catId : Int) (prev : List Int)
    (pick : Nat) :
    playQuizTry db (quizBodyFor catId prev) pick =
      (match availableQuestions db catId prev with
       | [] => .ok ⟨true, none⟩
       | q0 :: rest => .ok ⟨true, some (((q0 :: rest).get
           ⟨pick % (q0 :: rest).length,
            Nat.mod_lt _ (Nat.succ_pos rest.length)⟩).format)⟩) := by
  have h0 : playQuizTry db (quizBodyFor catId prev) pick =
      (asIdList (.jarr (prev.map JVal.jnum))).bind (fun prevIds =>
        match availableQuestions db catId prevIds with
        | [] => .ok ⟨true, none⟩
        | q0 :: rest => .ok ⟨true, some (((q0 :: rest).get
            ⟨pick % (q0 :: rest).length,
             Nat.mod_lt _ (Nat.succ_pos rest.length)⟩).format)⟩) := rfl
  rw [h0, asIdList_map_jnum prev]
  rfl

/-- Quiz run on a well-formed body with an exhausted eligible set. -/
theorem play_quiz_run_empty (db : TriviaDB) (catId : Int) (prev : List Int)
    (pick : Nat) (h : availableQuestions db catId prev = []) :
    play_quiz db (quizBodyFor catId prev) pick = .ok 200 ⟨true, none⟩ := by
  unfold play_quiz
  rw [playQuizTry_run, h]

/-- Quiz run on a well-formed body with a non-empty eligible set. -/
theorem play_quiz_run_cons (db : TriviaDB) (catId : Int) (prev : List Int)
    (pick : Nat) (q0 : Question) (rest : List Question)
    (h : availableQuestions db catId prev = q0 :: rest) :
    play_quiz db (quizBodyFor catId prev) pick =
      .ok 200 ⟨true, some (((q0 :: rest).get
        ⟨pick % (q0 :: rest).length,
         Nat.mod_lt _ (Nat.succ_pos rest.length)⟩).format)⟩ := by
  unfold play_quiz
  rw [playQuizTry_run, h]

/-- Negated `List.contains` is non-membership. -/
theorem not_contains_iff (l : List Int) (a : Int) :
    (!(l.contains a)) = true ↔ a ∉ l := by
  simp

/-- Claim C1: for a well-formed quiz body, the eligible set is exactly the
stored questions passing the category filter (all categories when the id is
the sentinel 0) and not among `previous_questions`; the handler returns a
question of the eligible set (element `pick % length` of it, so each
eligible question is returned for some value of the `random.choice`
oracle); and an empty eligible set yields status 200 with `success=true`
and a null question. -/
theorem play_quiz_spec (db : TriviaDB) (catId : Int) (prev : List Int)
    (pick : Nat) :
    (∀ q : Question, q ∈ availableQuestions db catId prev ↔
      (q ∈ db.questions ∧ (catId = 0 ∨ q.category = catId) ∧ q.id ∉ prev)) ∧
    (availableQuestions db catId prev = [] →
      play_quiz db (quizBodyFor catId prev) pick = .ok 200 ⟨true, none⟩) ∧
    (availableQuestions db catId prev ≠ [] →
      ∃ q ∈ availableQuestions db catId prev,
        play_quiz db (quizBodyFor catId prev) pick =
          .ok 200 ⟨true, some q.format⟩) ∧
    (∀ q ∈ availableQuestions db catId prev, ∃ k : Nat,
      play_quiz db (quizBodyFor catId prev) k = .ok 200 ⟨true, some q.format⟩) := by
  refine ⟨fun q => ?_, fun h => play_quiz_run_empty db catId prev pick h,
    fun hne => ?_, fun q hq => ?_⟩
  · unfold availableQuestions
    by_cases hcat : catId = 0
    · rw [if_pos hcat]
      simp only [List.mem_filter, not_contains_iff]
      constructor
      · rintro ⟨hq, hn⟩
        exact ⟨hq, Or.inl hcat, hn⟩
      · rintro ⟨hq, _, hn⟩
        exact ⟨hq, hn⟩
    · rw [if_neg hcat]
      simp only [List.mem_filter, not_contains_iff, beq_iff_eq]
      constructor
      · rintro ⟨⟨hq, hcateq⟩, hn⟩
        exact ⟨hq, Or.inr hcateq, hn⟩
      · rintro ⟨hq, hcats, hn⟩
        rcases hcats with h0 | hceq
        · exact absurd h0 hcat
        · exact ⟨⟨hq, hceq⟩, hn⟩
  · rcases List.exists_cons_of_ne_nil hne with ⟨q0, rest, hcons⟩
    refine ⟨(q0 :: rest).get ⟨pick % (q0 :: rest).length,
      Nat.mod_lt _ (Nat.succ_pos rest.length)⟩, ?_, ?_⟩
    · rw [hcons]
      exact List.get_mem _ _ _
    · exact play_quiz_run_cons db catId prev pick q0 rest hcons
  · cases hcons : availableQuestions db catId prev with
    | nil =>
      rw [hcons] at hq
      exact absurd hq (List.not_mem_nil q)
    | cons q0 rest =>
      rw [hcons] at hq
      rcases List.mem_iff_get.mp hq with ⟨i, hi⟩
      refine ⟨i.val, ?_⟩
      have := play_quiz_run_cons db catId prev i.val q0 rest hcons
      rw [this]
      have hidx : (⟨i.val % (q0 :: rest).length,
          Nat.mod_lt _ (Nat.succ_pos rest.length)⟩ : Fin (q0 :: rest).length) = i := by
        apply Fin.ext
        exact Nat.mod_eq_of_lt i.isLt
      rw [hidx, hi]

/-- Witness for C1 at the one-question database, sentinel category 0, no
previous questions, oracle pick 0. -/
theorem play_quiz_spec_witness :
    (∀ q : Question, q ∈ availableQuestions dbOne 0 [] ↔
      (q ∈ dbOne.questions ∧ ((0 : Int) = 0 ∨ q.category = 0) ∧ q.id ∉ ([] : List Int))) ∧
    (availableQuestions dbOne 0 [] = [] →
      play_quiz dbOne (quizBodyFor 0 []) 0 = .ok 200 ⟨true, none⟩) ∧
    (availableQuestions dbOne 0 [] ≠ [] →
      ∃ q ∈ availableQuestions dbOne 0 [],
        play_quiz dbOne (quizBodyFor 0 []) 0 = .ok 200 ⟨true, some q.format⟩) ∧
    (∀ q ∈ availableQuestions dbOne 0 [], ∃ k : Nat,
      play_quiz dbOne (quizBodyFor 0 []) k = .ok 200 ⟨true, some q.format⟩) :=
  play_quiz_spec dbOne 0 [] 0

/-- Claim C7: a quiz request whose `quiz_category` or `previous_questions`
key is absent or null is answered 400; every exception in the handler is
mapped to 400, including the malformed shapes `quiz_category` without an
`id` key and `previous_questions` that is not a list. -/
theorem play_quiz_errors_spec (db : TriviaDB) (fields : List (String × JVal))
    (body : JVal) (pick : Nat) :
    ((fields.lookup "quiz_category" = none ∨
        fields.lookup "quiz_category" = some .jnull ∨
        fields.lookup "previous_questions" = none ∨
        fields.lookup "previous_questions" = some .jnull) →
      play_quiz db (.jobj fields) pick =
        .err ⟨400, ⟨false, 400, "bad request!"⟩⟩) ∧
    (playQuizTry db body pick = .error () →
      play_quiz db body pick = .err ⟨400, ⟨false, 400, "bad request!"⟩⟩) ∧
    (∀ prev : List Int,
      play_quiz db (.jobj [("quiz_category", .jobj []),
        ("previous_questions", .jarr (prev.map JVal.jnum))]) pick =
        .err ⟨400, ⟨false, 400, "bad request!"⟩⟩) ∧
    (∀ catId : Int,
      play_quiz db (.jobj [("quiz_category", .jobj [("id", .jnum catId)]),
        ("previous_questions", .jnum 7)]) pick =
        .err ⟨400, ⟨false, 400, "bad request!"⟩⟩) := by
  refine ⟨fun hmiss => ?_, fun herr => ?_, fun prev => rfl, fun catId => rfl⟩
  · have hq : ∀ key : String, ∃ o : Option JVal,
        pyDictGet (.jobj fields) key = .ok o ∧
        (fields.lookup key = none → o = none) ∧
        (fields.lookup key = some .jnull → o = none) := by
      intro key
      have hred : pyDictGet (.jobj fields) key =
          (match fields.lookup key with
           | some .jnull => Except.ok none
           | some v => Except.ok (some v)
           | none => Except.ok none) := rfl
      rw [hred]
      cases hlk : fields.lookup key with
      | none => exact ⟨none, rfl, fun _ => rfl, fun _ => rfl⟩
      | some v =>
        cases v with
        | jnull => exact ⟨none, rfl, by simp, fun _ => rfl⟩
        | jbool b => exact ⟨some (.jbool b), rfl, by simp, by simp⟩
        | jnum n => exact ⟨some (.jnum n), rfl, by simp, by simp⟩
        | jstr s => exact ⟨some (.jstr s), rfl, by simp, by simp⟩
        | jarr xs => exact ⟨some (.jarr xs), rfl, by simp, by simp⟩
        | jobj fs => exact ⟨some (.jobj fs), rfl, by simp, by simp⟩
    obtain ⟨oc, hoc, hocn, hocj⟩ := hq "quiz_category"
    obtain ⟨op, hop, hopn, hopj⟩ := hq "previous_questions"
    have hrun : playQuizTry db (.jobj fields) pick = .error () := by
      have h0 : playQuizTry db (.jobj fields) pick =
          (pyDictGet (.jobj fields) "quiz_category").bind (fun category =>
            (pyDictGet (.jobj fields) "previous_questions").bind
              (fun previous_questions =>
                match category, previous_questions with
                | some cat, some prevV =>
                  (getIdInt cat).bind (fun catId =>
                    (asIdList prevV).bind (fun prev =>
                      match availableQuestions db catId prev with
                      | [] => .ok ⟨true, none⟩
                      | q0 :: rest => .ok ⟨true, some (((q0 :: rest).get
                          ⟨pick % (q0 :: rest).length,
                           Nat.mod_lt _ (Nat.succ_pos rest.length)⟩).format)⟩))
                | _, _ => .error ())) := rfl
      rw [h0, hoc, hop]
      rcases hmiss with h | h | h | h
      · rw [hocn h]
        cases op with
        | none => rfl
        | some v => rfl
      · rw [hocj h]
        cases op with
        | none => rfl
        | some v => rfl
      · rw [hopn h]
        cases oc with
        | none => rfl
        | some v => rfl
      · rw [hopj h]
        cases oc with
        | none => rfl
        | some v => rfl
    unfold play_quiz
    rw [hrun]
    rfl
  · unfold play_quiz
    rw [herr]
    rfl

/-- Witness for C7 at the one-question database: body with no fields at
all, and a non-object body making the `try` block raise. -/
theorem play_quiz_errors_spec_witness :
    ((([] : List (String × JVal)).lookup "quiz_category" = none ∨
        ([] : List (String × JVal)).lookup "quiz_category" = some .jnull ∨
        ([] : List (String × JVal)).lookup "previous_questions" = none ∨
        ([] : List (String × JVal)).lookup "previous_questions" = some .jnull) →
      play_quiz dbOne (.jobj []) 0 =
        .err ⟨400, ⟨false, 400, "bad request!"⟩⟩) ∧
    (playQuizTry dbOne (.jnum 3) 0 = .error () →
      play_quiz dbOne (.jnum 3) 0 = .err ⟨400, ⟨false, 400, "bad request!"⟩⟩) ∧
    (∀ prev : List Int,
      play_quiz dbOne (.jobj [("quiz_category", .jobj []),
        ("previous_questions", .jarr (prev.map JVal.jnum))]) 0 =
        .err ⟨400, ⟨false, 400, "bad request!"⟩⟩) ∧
    (∀ catId : Int,
      play_quiz dbOne (.jobj [("quiz_category", .jobj [("id", .jnum catId)]),
        ("previous_questions", .jnum 7)]) 0 =
        .err ⟨400, ⟨false, 400, "bad request!"⟩⟩) :=
  play_quiz_errors_spec dbOne [] (.jnum 3) 0

/-- Witness for C10 at the one-question database and the unparseable page
parameter `"abc"`. -/
theorem get_questions_bad_page_defaults_witness :
    get_questions dbOne (some "abc") = getQuestionsAt dbOne 1 ∧
    get_questions dbOne none = getQuestionsAt dbOne 1 :=
  get_questions_bad_page_defaults dbOne "abc" (by decide)
